import Mathlib

/-!
Verification of the crawler's orchestration core: the per-domain frontier
queue, the scraper's link-extraction filter, the adaptive concurrency
controller (`LoadScaler`), the dispatch loop (`process_tasks`), the
per-domain crawl with its single retry pass (`process_domain`), and the
startup path (`load_start_urls` / `main`).

The Python source is embedded shallowly: strings stay strings, Python sets
whose iteration order does not matter become insertion-ordered duplicate-free
lists, the `asyncio` dispatch loop becomes a fuel-bounded step function whose
completion order is a scheduling parameter, and the external page fetch
(Playwright navigation) becomes an oracle `String → Nat → FetchResult`
indexed by the URL and the number of earlier fetches of that URL.
-/

namespace Crawler

/-! ### String helpers modelling the Python library calls used by the source -/

/-- Model of `urllib.parse.urlparse(s).netloc` restricted to http(s) URLs:
the host-and-port portion after the scheme, up to the first `/`, `?` or `#`.
Non-http(s) strings (relative references) have an empty netloc. -/
def hostChars : List Char → List Char :=
  List.takeWhile (fun c => c ≠ '/' && c ≠ '?' && c ≠ '#')

/-- `urlparse(s).netloc` for the URL shapes the crawler handles. -/
def netloc (s : String) : String :=
  let cs := s.toList
  if "http://".toList.isPrefixOf cs then ⟨hostChars (cs.drop 7)⟩
  else if "https://".toList.isPrefixOf cs then ⟨hostChars (cs.drop 8)⟩
  else ""

/-- Python `str.replace("www.", "")` removes every (left-to-right,
non-overlapping) occurrence of `"www."`, not only a leading prefix. -/
def stripWWW : List Char → List Char
  | 'w' :: 'w' :: 'w' :: '.' :: rest => stripWWW rest
  | c :: rest => c :: stripWWW rest
  | [] => []

/-- `urlparse(url).netloc.replace("www.", "")` — the domain normalisation
the scraper applies to both the page URL and each extracted link. -/
def normDomain (s : String) : String := ⟨stripWWW (netloc s).toList⟩

/-- The spec's words: the domain is the host component with only a LEADING
`"www."` prefix ignored. Used to compare the source's normalisation
(`normDomain`) against the specified one. -/
def specDomain (s : String) : String :=
  let h := netloc s
  if "www.".toList.isPrefixOf h.toList then ⟨h.toList.drop 4⟩ else h

/-- Model of the `furl` fragment removal (`f.fragment = ''; f.url`):
everything from the first `#` on is dropped. -/
def stripFragment (s : String) : String :=
  ⟨s.toList.takeWhile (fun c => c ≠ '#')⟩

/-- A URL string still carrying a fragment component. -/
def hasFragment (s : String) : Bool := s.toList.any (fun c => c = '#')

/-- Substring containment, as Python's `pat in s`. -/
def containsSub (l pat : List Char) : Bool :=
  match l with
  | [] => pat.isEmpty
  | _ :: rest => pat.isPrefixOf l || containsSub rest pat

/-- `pat in s` on strings. -/
def strContains (s pat : String) : Bool := containsSub s.toList pat.toList

/-- Model of `urllib.parse.urljoin(base, link)` for the values the crawler
sees: the browser's `el.href` values are absolute, and absolute http(s)
links are returned unchanged; relative references are approximated by
concatenation (no theorem depends on that branch). -/
def urljoin (base link : String) : String :=
  if netloc link ≠ "" then link else base ++ link

/-! ### Configuration constants (src/config.py) -/

/-- `PRODUCT_PATTERNS` from src/config.py. -/
def PRODUCT_PATTERNS : List String := ["/p/", "/products/", "/product/", "/dp/"]

/-- `AUTO_SCALE` from src/config.py. -/
def AUTO_SCALE : Bool := true

/-- `MAXIMUM_CONCURRENCY_LIMIT` from src/config.py. -/
def MAXIMUM_CONCURRENCY_LIMIT : Nat := 32

/-- `any(pattern in link for pattern in PRODUCT_PATTERNS)` (src/scraper.py). -/
def isProductLink (link : String) : Bool :=
  PRODUCT_PATTERNS.any (fun pattern => strContains link pattern)

/-! ### The scraper's link-processing section (src/scraper.py, fetch_dynamic_content) -/

/-- One line of the per-domain output file (src/scraper.py):
`{'domain': ..., 'parent_link': ..., 'count': ..., 'product_links': ...}`. -/
structure OutputRecord where
  domain : String
  parent_link : String
  count : Nat
  product_links : List String
deriving DecidableEq

/-- `link = urljoin(url, link)` followed by the `furl` fragment removal:
the normalised, stored form of one raw href. -/
def linkOf (url raw : String) : String := stripFragment (urljoin url raw)

/-- The `for link in links:` loop of `fetch_dynamic_content`: each raw href is
resolved against the page URL, its fragment is stripped, cross-domain links
(under `normDomain`) and links already in `visited_urls` are skipped, the
rest enter `visited_urls`, `product_links` (when a product pattern matches)
and `new_urls`. Python's sets are kept as insertion-ordered lists; a link is
appended at most once because it enters `vis` first. -/
def fetchLinkLoop (url domain : String) :
    List String → List String → List String → List String →
    List String × List String × List String
  | [], vis, prods, news => (vis, prods, news)
  | raw :: rest, vis, prods, news =>
    if domain ≠ normDomain (linkOf url raw) ∨ linkOf url raw ∈ vis then
      fetchLinkLoop url domain rest vis prods news
    else
      fetchLinkLoop url domain rest (vis ++ [linkOf url raw])
        (if isProductLink (linkOf url raw) then prods ++ [linkOf url raw] else prods)
        (news ++ [linkOf url raw])

/-- The link-processing loop started from empty `product_links`/`new_urls`
sets, with `domain = urlparse(url).netloc.replace('www.','')`.
Returns `(visited_urls, product_links, new_urls)`. -/
def processLinks (url : String) (vis links : List String) :
    List String × List String × List String :=
  fetchLinkLoop url (normDomain url) links vis [] []

/-- Result of the successful path of `fetch_dynamic_content`: the updated
`visited_urls`, the returned `new_urls`, the computed `product_links`, and
the output record appended iff `product_links` is non-empty. -/
structure FetchOut where
  new_urls : List String
  visited : List String
  product_links : List String
  record : Option OutputRecord
deriving DecidableEq

/-- The pure content of `fetch_dynamic_content` after a 200 response:
link filtering plus the conditional output write (src/scraper.py). -/
def fetch_dynamic_content (url : String) (vis links : List String) : FetchOut :=
  let out := processLinks url vis links
  { new_urls := out.2.2
    visited := out.1
    product_links := out.2.1
    record :=
      if out.2.1.isEmpty then none
      else some ⟨normDomain url, url, out.2.1.length, out.2.1⟩ }

/-! ### Adaptive concurrency controller (src/load_scaler.py) -/

/-- `LoadScaler.MIN_CONCURRENCY`. -/
def MIN_CONCURRENCY : Nat := 1

/-- `LoadScaler.ADAPTIVE_STEP`. -/
def ADAPTIVE_STEP : Nat := 2

/-- `LoadScaler.ADAPTIVE_THRESHOLD`. -/
def ADAPTIVE_THRESHOLD : Nat := 3

/-- The mutable attributes of a `LoadScaler` instance. -/
structure LoadScaler where
  auto_scale : Bool
  max_limit : Nat
  concurrency : Nat
  fast_completions : Nat
deriving DecidableEq

/-- `os.cpu_count() // 4 if os.cpu_count() else 2` (src/load_scaler.py):
Python treats both `None` and `0` as falsy. -/
def cpuHint : Option Nat → Nat
  | some n => if n = 0 then 2 else n / 4
  | none => 2

/-- `_initialize_concurrency` (src/load_scaler.py). `cores` models
`os.cpu_count()`. -/
def initializeConcurrency (auto : Bool) (maxLimit : Nat) (cores : Option Nat) : Nat :=
  if auto then max MIN_CONCURRENCY (min maxLimit (cpuHint cores))
  else max MIN_CONCURRENCY maxLimit

/-- `LoadScaler.__init__(auto_scale, max_limit)`. -/
def mkLoadScaler (auto : Bool) (maxLimit : Nat) (cores : Option Nat) : LoadScaler :=
  { auto_scale := auto
    max_limit := maxLimit
    concurrency := initializeConcurrency auto maxLimit cores
    fast_completions := 0 }

/-- `adjust_concurrency(success)` (src/load_scaler.py). -/
def adjust_concurrency (s : LoadScaler) (success : Bool) : LoadScaler :=
  if success then
    let fc := s.fast_completions + 1
    if ADAPTIVE_THRESHOLD ≤ fc ∧ s.concurrency < s.max_limit then
      { s with concurrency := min (s.concurrency + ADAPTIVE_STEP) s.max_limit
               fast_completions := 0 }
    else { s with fast_completions := fc }
  else
    if MIN_CONCURRENCY < s.concurrency then
      { s with fast_completions := 0
               concurrency := max (s.concurrency - ADAPTIVE_STEP) MIN_CONCURRENCY }
    else { s with fast_completions := 0 }

/-- A sequence of `adjust_concurrency` calls. -/
def runAdjust (s : LoadScaler) (outcomes : List Bool) : LoadScaler :=
  outcomes.foldl adjust_concurrency s

/-! ### The dispatch loop (src/main.py, process_url / process_tasks) -/

/-- Outcome of one task-level fetch attempt, as seen by `process_url` /
`process_tasks`: `ok links` is a 200 page with the given raw hrefs;
`failed` is `fetch_dynamic_content` returning `([], False)` after its
internal retries; `timedOut` is the outer `asyncio.wait_for` timeout
raised at `task.result()`; `errored` is any other exception raised there. -/
inductive FetchResult where
  | ok (links : List String)
  | failed
  | timedOut
  | errored
deriving DecidableEq

/-- The state threaded through the dispatch loop of one domain crawl:
the `QueueManager` queue, the URLs of in-flight tasks, the `url` variable
of `process_tasks` (a single Python local, overwritten by each dequeue and
still in scope inside the collect loop), the `failed_urls` set, the
scraper's `visited_urls` set and appended output records, the fetch log
(for counting attempts per URL), and the `LoadScaler`. -/
structure CrawlState where
  queue : List String
  inflight : List String
  urlVar : String
  failed : List String
  visited : List String
  records : List OutputRecord
  fetchLog : List String
  scaler : LoadScaler
deriving DecidableEq

/-- Set-insert for Python sets kept as duplicate-free lists. -/
def insertSet (l : List String) (x : String) : List String :=
  if l.contains x then l else l ++ [x]

/-- `process_url(url, queue, scraper, browser)` (src/main.py), linearised at
the point the task completes: consult the oracle (indexed by how many times
this URL was fetched before), and on success run the scraper's link loop,
append the output record, and `await queue.add_urls(new_urls)` — the FIRST
enqueue of the discovered links. Returns `some (new_urls, success)` for a
normal return and `none` when `task.result()` re-raises (timeout/error). -/
def process_url (oracle : String → Nat → FetchResult) (st : CrawlState)
    (url : String) : CrawlState × Option (List String × Bool) :=
  let n := st.fetchLog.count url
  let st := { st with fetchLog := st.fetchLog ++ [url] }
  match oracle url n with
  | .ok links =>
    let out := fetch_dynamic_content url st.visited links
    let st := { st with
      visited := out.visited
      records := st.records ++ (out.record.map (fun r => [r])).getD []
      queue := st.queue ++ out.new_urls }
    (st, some (out.new_urls, true))
  | .failed => (st, some ([], false))
  | .timedOut => (st, none)
  | .errored => (st, none)

/-- The `for task in done:` body of `process_tasks` (src/main.py, lines
56‑71) for one completed task: read the result, adjust the controller,
enqueue `new_urls` AGAIN if non-empty, and on failure/timeout/error add the
CURRENT value of the loop variable `url` (the most recently dequeued URL,
not necessarily this task's URL) to `failed_urls`. -/
def collectTask (oracle : String → Nat → FetchResult) (st : CrawlState)
    (taskUrl : String) : CrawlState :=
  let (st, res) := process_url oracle st taskUrl
  match res with
  | some (newUrls, success) =>
    let st := { st with scaler := adjust_concurrency st.scaler success }
    let st := if newUrls.isEmpty then st else { st with queue := st.queue ++ newUrls }
    if success then st else { st with failed := insertSet st.failed st.urlVar }
  | none =>
    let st := { st with scaler := adjust_concurrency st.scaler false }
    { st with failed := insertSet st.failed st.urlVar }

/-- The inner dispatch `while len(tasks) < concurrency and not
queue.is_empty():` loop: dequeue, overwrite the `url` variable, start the
task. -/
def dispatchLoop (conc : Nat) :
    List String → List String → String → List String × List String × String
  | [], inflight, urlVar => ([], inflight, urlVar)
  | u :: rest, inflight, urlVar =>
    if inflight.length < conc then dispatchLoop conc rest (inflight ++ [u]) u
    else (u :: rest, inflight, urlVar)

/-- `await asyncio.wait(tasks, return_when=FIRST_COMPLETED)` followed by the
collect loop: the scheduler's `picks` choose which in-flight tasks complete
this round (indices modulo the current in-flight count, at least one). -/
def collectRound (oracle : String → Nat → FetchResult) (picks : List Nat)
    (st : CrawlState) : CrawlState :=
  (if picks.isEmpty then [0] else picks).foldl
    (fun st i =>
      if st.inflight.isEmpty then st
      else
        let j := i % st.inflight.length
        let u := st.inflight.getD j ""
        collectTask oracle { st with inflight := st.inflight.eraseIdx j } u)
    st

/-- One iteration of the outer `while not queue.is_empty() or tasks:` loop. -/
def crawlRound (oracle : String → Nat → FetchResult) (picks : List Nat)
    (st : CrawlState) : CrawlState :=
  let d := dispatchLoop st.scaler.concurrency st.queue st.inflight st.urlVar
  collectRound oracle picks
    { st with queue := d.1, inflight := d.2.1, urlVar := d.2.2 }

/-- `process_tasks(queue, browser, scraper, load_scaler)` (src/main.py):
the outer loop, fuel-bounded, with one scheduler choice per round (an empty
schedule defaults each round to completing the oldest in-flight task). -/
def process_tasks (oracle : String → Nat → FetchResult) :
    List (List Nat) → Nat → CrawlState → CrawlState
  | _, 0, st => st
  | sched, fuel + 1, st =>
    if st.queue.isEmpty ∧ st.inflight.isEmpty then st
    else
      match sched with
      | [] => process_tasks oracle [] fuel (crawlRound oracle [0] st)
      | picks :: rest => process_tasks oracle rest fuel (crawlRound oracle picks st)

/-! ### Per-domain crawl (src/main.py, process_domain) -/

/-- `QueueManager.add_urls(urls)`: each URL is appended to the queue,
unconditionally — the queue itself performs no deduplication. -/
def add_urls (queue urls : List String) : List String := queue ++ urls

/-- The initial per-domain queue: `queue = QueueManager();
await queue.add_urls([url])` (src/main.py, process_domain). The seed URL is
enqueued verbatim — no fragment stripping, no seen-set insertion. -/
def initDomainQueue (url : String) : List String := add_urls [] [url]

/-- A fresh `CrawlState` for one domain: empty scraper state, the seed URL
queued, and a `LoadScaler(auto_scale=AUTO_SCALE,
max_limit=MAXIMUM_CONCURRENCY_LIMIT)`. -/
def initCrawlState (cores : Option Nat) (seed : String) : CrawlState :=
  { queue := initDomainQueue seed
    inflight := []
    urlVar := ""
    failed := []
    visited := []
    records := []
    fetchLog := []
    scaler := mkLoadScaler AUTO_SCALE MAXIMUM_CONCURRENCY_LIMIT cores }

/-- `process_domain(url, browser, domain_semaphore)` (src/main.py): run
`process_tasks`; if `failed_links` is non-empty, `queue.add_urls` them back
(the scraper and scaler persist, `failed_urls` starts fresh) and run
`process_tasks` once more, discarding its own failed set — there is no third
pass. -/
def process_domain (oracle : String → Nat → FetchResult)
    (sched1 sched2 : List (List Nat)) (fuel1 fuel2 : Nat)
    (cores : Option Nat) (seed : String) : CrawlState :=
  let st1 := process_tasks oracle sched1 fuel1 (initCrawlState cores seed)
  if st1.failed.isEmpty then st1
  else
    process_tasks oracle sched2 fuel2
      { st1 with queue := add_urls st1.queue st1.failed, failed := [], urlVar := "" }

/-! ### Startup (src/utils.py load_start_urls, src/main.py main) -/

/-- Python `str.strip()`: leading and trailing whitespace removed. -/
def pyStrip (s : String) : String :=
  ⟨((s.toList.dropWhile Char.isWhitespace).reverse.dropWhile Char.isWhitespace).reverse⟩

/-- `load_start_urls(file_path)` (src/utils.py): `none` models a missing
file (returns `[]`); otherwise every line is stripped and blank lines are
dropped (`[line.strip() for line in f.readlines() if line.strip()]`). -/
def load_start_urls (file : Option (List String)) : List String :=
  match file with
  | none => []
  | some lines => (lines.map pyStrip).filter (fun l => l != "")

/-- `main()` (src/main.py) up to the branch that decides between
`sys.exit(1)` and crawling: with no start URLs the process exits with
status 1 before launching the browser, so no domain is crawled and no
output record is ever produced; otherwise every seed URL gets a
`process_domain` run. -/
def mainRun (file : Option (List String)) (oracle : String → Nat → FetchResult)
    (cores : Option Nat) (fuel : Nat) : Except Nat (List CrawlState) :=
  let urls := load_start_urls file
  if urls.isEmpty then .error 1
  else .ok (urls.map (fun u => process_domain oracle [] [] fuel fuel cores u))

/-! ### Spec-side definitions used for comparison -/

/-- The controller transition exactly as the spec words it: "success:
increment `streak`; once `streak ≥ threshold` (default 3) and
`current < max`, raise `current` by `step` (default 2), capped at `max`,
then reset `streak` to 0. failure: reset `streak` to 0; if `current > min`,
lower `current` by `step`, floored at `min` (default 1)." -/
def specAdjust (s : LoadScaler) (success : Bool) : LoadScaler :=
  if success then
    let streak := s.fast_completions + 1
    if 3 ≤ streak ∧ s.concurrency < s.max_limit then
      { s with concurrency := min (s.concurrency + 2) s.max_limit
               fast_completions := 0 }
    else { s with fast_completions := streak }
  else
    if 1 < s.concurrency then
      { s with fast_completions := 0
               concurrency := max (s.concurrency - 2) 1 }
    else { s with fast_completions := 0 }

/-! ### Concrete fetch oracles used in the counterexample runs -/

/-- Fetching the seed `"https://d/a"` succeeds and yields one same-domain
link `"https://d/l"`; every fetch of any other URL fails. -/
def oracleSingleLink : String → Nat → FetchResult := fun u _ =>
  if u = "https://d/a" then .ok ["https://d/l"] else .failed

/-- `"https://d/u1"` always fails to fetch; everything else succeeds with no
links. -/
def oracleFirstFails : String → Nat → FetchResult := fun u _ =>
  if u = "https://d/u1" then .failed else .ok []

/-- Every fetch fails. -/
def oracleAllFail : String → Nat → FetchResult := fun _ _ => .failed

/-- A dispatch-loop state holding two pending URLs of the same domain, with
initial concurrency 2 (`AUTO_SCALE` with an 8-core hint). -/
def twoUrlState : CrawlState :=
  { initCrawlState (some 8) "https://d/u1" with
      queue := ["https://d/u1", "https://d/u2"] }

/-! ### Helper lemmas -/

lemma toList_mk (l : List Char) : String.toList ⟨l⟩ = l := rfl

lemma hasFragment_stripFragment (s : String) :
    hasFragment (stripFragment s) = false := by
  rw [hasFragment, stripFragment, toList_mk]
  rw [List.any_eq_false]
  intro c hc
  have hp := List.mem_takeWhile_imp hc
  simp only [decide_eq_true_eq] at hp
  simp [hp]

lemma hasFragment_linkOf (url raw : String) :
    hasFragment (linkOf url raw) = false := by
  rw [linkOf]; exact hasFragment_stripFragment _

/-- In the scraper's loop, `product_links` stays exactly the product-pattern
sublist of `new_urls`. -/
lemma fetchLinkLoop_prods (url domain : String) :
    ∀ (links vis prods news : List String),
      prods = news.filter isProductLink →
      (fetchLinkLoop url domain links vis prods news).2.1 =
        (fetchLinkLoop url domain links vis prods news).2.2.filter isProductLink := by
  intro links
  induction links with
  | nil => intro vis prods news h; simpa [fetchLinkLoop] using h
  | cons raw rest ih =>
    intro vis prods news h
    rw [fetchLinkLoop]
    split
    · exact ih vis prods news h
    · apply ih
      rw [h, List.filter_append]
      by_cases hp : isProductLink (linkOf url raw) = true
      · simp [hp]
      · simp [hp]

/-- Every URL the scraper's loop adds to `new_urls` carries the page's
normalised domain (`normDomain`, i.e. every `"www."` occurrence removed). -/
lemma fetchLinkLoop_news_domain (url domain : String) :
    ∀ (links vis prods news : List String) (l : String),
      l ∈ (fetchLinkLoop url domain links vis prods news).2.2 →
      l ∈ news ∨ normDomain l = domain := by
  intro links
  induction links with
  | nil => intro vis prods news l hl; exact Or.inl (by simpa [fetchLinkLoop] using hl)
  | cons raw rest ih =>
    intro vis prods news l hl
    rw [fetchLinkLoop] at hl
    split at hl
    · exact ih vis prods news l hl
    · rename_i hguard
      push_neg at hguard
      rcases ih _ _ _ _ hl with hmem | hdom
      · rcases List.mem_append.mp hmem with hmem | hmem
        · exact Or.inl hmem
        · right
          rw [List.mem_singleton.mp hmem]
          exact hguard.1.symm
      · exact Or.inr hdom

/-- Every URL the scraper's loop adds to `new_urls` is fragment-free and was
not in `visited_urls` when it was added (exact string-match dedup). -/
lemma fetchLinkLoop_news_clean (url domain : String) :
    ∀ (links vis prods news : List String) (l : String),
      l ∈ (fetchLinkLoop url domain links vis prods news).2.2 →
      l ∈ news ∨ (hasFragment l = false ∧ l ∉ vis) := by
  intro links
  induction links with
  | nil => intro vis prods news l hl; exact Or.inl (by simpa [fetchLinkLoop] using hl)
  | cons raw rest ih =>
    intro vis prods news l hl
    rw [fetchLinkLoop] at hl
    split at hl
    · exact ih vis prods news l hl
    · rename_i hguard
      push_neg at hguard
      rcases ih _ _ _ _ hl with hmem | ⟨hfrag, hvis⟩
      · rcases List.mem_append.mp hmem with hmem | hmem
        · exact Or.inl hmem
        · right
          rw [List.mem_singleton.mp hmem]
          exact ⟨hasFragment_linkOf url raw, hguard.2⟩
      · exact Or.inr ⟨hfrag, fun hin => hvis (List.mem_append_left _ hin)⟩

/-- `adjust_concurrency` keeps `concurrency` within
`[MIN_CONCURRENCY, max_limit]` and never touches `max_limit`. -/
lemma adjust_concurrency_inv (s : LoadScaler) (b : Bool)
    (h1 : MIN_CONCURRENCY ≤ s.concurrency) (h2 : s.concurrency ≤ s.max_limit) :
    MIN_CONCURRENCY ≤ (adjust_concurrency s b).concurrency ∧
      (adjust_concurrency s b).concurrency ≤ (adjust_concurrency s b).max_limit ∧
      (adjust_concurrency s b).max_limit = s.max_limit := by
  cases b <;>
    simp only [adjust_concurrency, MIN_CONCURRENCY, ADAPTIVE_STEP, ADAPTIVE_THRESHOLD] <;>
    split_ifs with hc <;>
    refine ⟨?_, ?_, rfl⟩ <;>
    simp only [MIN_CONCURRENCY] at h1 ⊢ <;>
    omega

/-- The invariant holds after any sequence of `adjust_concurrency` calls. -/
lemma runAdjust_inv :
    ∀ (outcomes : List Bool) (s : LoadScaler),
      MIN_CONCURRENCY ≤ s.concurrency → s.concurrency ≤ s.max_limit →
      MIN_CONCURRENCY ≤ (runAdjust s outcomes).concurrency ∧
        (runAdjust s outcomes).concurrency ≤ (runAdjust s outcomes).max_limit := by
  intro outcomes
  induction outcomes with
  | nil => intro s h1 h2; exact ⟨h1, h2⟩
  | cons b rest ih =>
    intro s h1 h2
    obtain ⟨g1, g2, _⟩ := adjust_concurrency_inv s b h1 h2
    exact ih (adjust_concurrency s b) g1 g2

/-- `_initialize_concurrency` lands inside the bounds whenever
`max_limit ≥ MIN_CONCURRENCY`. -/
lemma initializeConcurrency_inv (auto : Bool) (maxLimit : Nat) (cores : Option Nat)
    (h : MIN_CONCURRENCY ≤ maxLimit) :
    MIN_CONCURRENCY ≤ initializeConcurrency auto maxLimit cores ∧
      initializeConcurrency auto maxLimit cores ≤ maxLimit := by
  simp only [MIN_CONCURRENCY] at h ⊢
  cases auto <;> simp only [initializeConcurrency, MIN_CONCURRENCY] <;>
    split_ifs <;> constructor <;> omega

/-! ### Claim theorems -/

/-- Claim C3: `adjust_concurrency` coincides with the spec's transition
(success: increment the streak, and once it reaches the threshold of 3 with
`current < max`, raise `current` by 2 capped at `max` and reset the streak;
failure: reset the streak and, when `current > min`, lower `current` by 2
floored at `min` = 1); in particular from `current = 5` two consecutive
failures give `current = 3` and then `current = 1`. -/
theorem adjust_concurrency_matches_spec :
    (∀ (s : LoadScaler) (b : Bool), adjust_concurrency s b = specAdjust s b) ∧
    (∀ s : LoadScaler, s.concurrency = 5 →
      (adjust_concurrency s false).concurrency = 3 ∧
      (adjust_concurrency (adjust_concurrency s false) false).concurrency = 1) := by
  constructor
  · intro s b
    cases b <;>
      simp only [adjust_concurrency, specAdjust,
        MIN_CONCURRENCY, ADAPTIVE_STEP, ADAPTIVE_THRESHOLD]
  · intro s h5
    simp only [adjust_concurrency, MIN_CONCURRENCY, ADAPTIVE_STEP, h5]
    norm_num

/-- Witness for C3: the concrete two-failure scenario starting at
`current = 5`. -/
theorem adjust_concurrency_matches_spec_witness :
    (adjust_concurrency ⟨true, 32, 5, 0⟩ false).concurrency = 3 ∧
    (adjust_concurrency (adjust_concurrency ⟨true, 32, 5, 0⟩ false) false).concurrency = 1 :=
  adjust_concurrency_matches_spec.2 ⟨true, 32, 5, 0⟩ rfl

/-- Claim C4, amended: for every `LoadScaler` whose `max_limit` is at least
`MIN_CONCURRENCY` (the claim's "any max_limit" fails at `max_limit = 0`),
the bound `min ≤ current ≤ max` holds immediately after initialization and
after every sequence of `adjust_concurrency` calls. -/
theorem concurrency_within_bounds (auto : Bool) (maxLimit : Nat)
    (cores : Option Nat) (outcomes : List Bool)
    (h : MIN_CONCURRENCY ≤ maxLimit) :
    MIN_CONCURRENCY ≤ (mkLoadScaler auto maxLimit cores).concurrency ∧
    (mkLoadScaler auto maxLimit cores).concurrency ≤
      (mkLoadScaler auto maxLimit cores).max_limit ∧
    MIN_CONCURRENCY ≤ (runAdjust (mkLoadScaler auto maxLimit cores) outcomes).concurrency ∧
    (runAdjust (mkLoadScaler auto maxLimit cores) outcomes).concurrency ≤
      (runAdjust (mkLoadScaler auto maxLimit cores) outcomes).max_limit := by
  obtain ⟨h1, h2⟩ := initializeConcurrency_inv auto maxLimit cores h
  have hinit1 : MIN_CONCURRENCY ≤ (mkLoadScaler auto maxLimit cores).concurrency := h1
  have hinit2 : (mkLoadScaler auto maxLimit cores).concurrency ≤
      (mkLoadScaler auto maxLimit cores).max_limit := h2
  obtain ⟨g1, g2⟩ := runAdjust_inv outcomes (mkLoadScaler auto maxLimit cores) hinit1 hinit2
  exact ⟨hinit1, hinit2, g1, g2⟩

/-- Witness for C4: concrete bounds after two adjustments from an
auto-scaled controller. -/
theorem concurrency_within_bounds_witness :
    MIN_CONCURRENCY ≤ (mkLoadScaler true 32 (some 4)).concurrency ∧
    (mkLoadScaler true 32 (some 4)).concurrency ≤ (mkLoadScaler true 32 (some 4)).max_limit ∧
    MIN_CONCURRENCY ≤ (runAdjust (mkLoadScaler true 32 (some 4)) [true, false]).concurrency ∧
    (runAdjust (mkLoadScaler true 32 (some 4)) [true, false]).concurrency ≤
      (runAdjust (mkLoadScaler true 32 (some 4)) [true, false]).max_limit :=
  concurrency_within_bounds true 32 (some 4) [true, false] (by decide)

/-- Counterexample to C4 as stated: constructed with `max_limit = 0`
(auto-scaling disabled), the controller starts at `concurrency = 1`, which
already violates `current ≤ max`. -/
theorem concurrency_bound_fails_for_zero_max :
    (mkLoadScaler false 0 none).concurrency = 1 ∧
    ¬ (mkLoadScaler false 0 none).concurrency ≤ (mkLoadScaler false 0 none).max_limit := by
  decide

/-- Claim C6, amended: the scraper's cross-domain filter compares domains
after removing EVERY occurrence of `"www."` from the host
(`str.replace("www.", "")`), not only a leading prefix; under that
normalisation, every link returned among the discovered links (and hence
everything handed to the frontier) has the page's domain. -/
theorem cross_domain_links_filtered (url : String) (vis links : List String) :
    ∀ l ∈ (fetch_dynamic_content url vis links).new_urls,
      normDomain l = normDomain url := by
  intro l hl
  have h := fetchLinkLoop_news_domain url (normDomain url) links vis [] [] l hl
  simpa using h

/-- Witness for the amended C6: the same-domain product link of the spec's
scenario page survives the filter with the page's domain. -/
theorem cross_domain_links_filtered_witness :
    normDomain "https://shop.example/p/1" = normDomain "https://shop.example/a" :=
  cross_domain_links_filtered "https://shop.example/a" []
    ["https://shop.example/p/1", "https://other.example/x"]
    "https://shop.example/p/1" (by decide)

/-- Counterexample to C6 as stated: the page `"https://foo.com/"` and the
link `"https://foo.www.com/x"` have different domains under the claim's
"leading www. only" rule, yet `replace("www.", "")` also removes the inner
`"www."`, so the scraper treats the link as same-domain and returns it
among the discovered links (whence it is enqueued). -/
theorem inner_www_link_treated_as_same_domain :
    "https://foo.www.com/x" ∈
      (fetch_dynamic_content "https://foo.com/" [] ["https://foo.www.com/x"]).new_urls ∧
    specDomain "https://foo.www.com/x" ≠ specDomain "https://foo.com/" := by
  decide

/-- Claim C7, amended: every DISCOVERED link is stored in fragment-stripped
form and deduplicated by exact string match against the seen-set (it enters
`new_urls` only if its normalized form was not already in `visited_urls`);
seed URLs, however, are enqueued verbatim by `process_domain`, without
fragment stripping. -/
theorem discovered_links_normalized_seed_verbatim :
    (∀ (url : String) (vis links : List String) (l : String),
        l ∈ (fetch_dynamic_content url vis links).new_urls →
        hasFragment l = false ∧ l ∉ vis) ∧
    (∀ seed : String, initDomainQueue seed = [seed]) := by
  constructor
  · intro url vis links l hl
    have h := fetchLinkLoop_news_clean url (normDomain url) links vis [] [] l hl
    simpa using h
  · intro seed; rfl

/-- Witness for the amended C7: a raw href carrying a fragment is stored
without it, and a seed is enqueued verbatim. -/
theorem discovered_links_normalized_witness :
    (hasFragment "https://shop.example/p/1" = false ∧
      "https://shop.example/p/1" ∉ ([] : List String)) ∧
    initDomainQueue "https://d/a" = ["https://d/a"] :=
  ⟨discovered_links_normalized_seed_verbatim.1 "https://shop.example/a" []
      ["https://shop.example/p/1#frag"] "https://shop.example/p/1" (by decide),
    discovered_links_normalized_seed_verbatim.2 "https://d/a"⟩

/-- Counterexample to C7 as stated: a seed URL with a fragment is stored in
the domain's frontier with its fragment intact (`process_domain` enqueues
the seed without any normalisation). -/
theorem seed_enqueued_with_fragment :
    "https://shop.example/a#top" ∈ initDomainQueue "https://shop.example/a#top" ∧
    hasFragment "https://shop.example/a#top" = true := by
  decide

/-- Claim C8: on a successfully fetched page, an output record is appended
iff at least one discovered link matches a product pattern, and the record
is `{domain, parent_link, count, product_links}` with `parent_link` the
processed URL, `product_links` exactly the product links found
(the product-pattern sublist of the discovered links), and `count` their
number. -/
theorem output_record_iff_product_link (url : String) (vis links : List String) :
    ((fetch_dynamic_content url vis links).record.isSome ↔
      ∃ l ∈ (fetch_dynamic_content url vis links).new_urls, isProductLink l = true) ∧
    (∀ r, (fetch_dynamic_content url vis links).record = some r →
      r.parent_link = url ∧
      r.product_links = (fetch_dynamic_content url vis links).new_urls.filter isProductLink ∧
      r.count = r.product_links.length ∧
      r.domain = normDomain url) := by
  have hp : (processLinks url vis links).2.1 =
      (processLinks url vis links).2.2.filter isProductLink :=
    fetchLinkLoop_prods url (normDomain url) links vis [] [] rfl
  constructor
  · rw [fetch_dynamic_content]
    rcases h : (processLinks url vis links).2.1 with _ | ⟨a, rest⟩
    · rw [h] at hp
      simp only [h, List.isEmpty_nil, if_pos]
      simp only [Option.isSome_none, Bool.false_eq_true, false_iff, not_exists]
      intro l hl
      have hnil := hp.symm
      rw [List.filter_eq_nil_iff] at hnil
      exact absurd hl.2 (by simpa using hnil l hl.1)
    · rw [h] at hp
      simp only [h, List.isEmpty_cons, Bool.false_eq_true, if_neg, not_false_iff,
        Option.isSome_some, true_iff]
      have ha : a ∈ (processLinks url vis links).2.2.filter isProductLink := by
        rw [← hp]; exact List.mem_cons_self a rest
      exact ⟨a, List.mem_of_mem_filter ha, List.of_mem_filter ha⟩
  · intro r hr
    rw [fetch_dynamic_content] at hr
    simp only at hr
    split at hr
    · exact absurd hr (by simp)
    · obtain rfl := (Option.some_inj.mp hr).symm
      exact ⟨rfl, hp, rfl, rfl⟩

/-- Witness for C8: the spec's scenario page yields exactly one record,
whose fields are checked through the theorem. -/
theorem output_record_iff_product_link_witness :
    (fetch_dynamic_content "https://shop.example/a" []
        ["https://shop.example/p/1", "https://other.example/x"]).record.isSome ∧
    ((⟨"shop.example", "https://shop.example/a", 1,
        ["https://shop.example/p/1"]⟩ : OutputRecord).parent_link = "https://shop.example/a" ∧
      (⟨"shop.example", "https://shop.example/a", 1,
        ["https://shop.example/p/1"]⟩ : OutputRecord).product_links =
        (fetch_dynamic_content "https://shop.example/a" []
          ["https://shop.example/p/1", "https://other.example/x"]).new_urls.filter isProductLink ∧
      (⟨"shop.example", "https://shop.example/a", 1,
        ["https://shop.example/p/1"]⟩ : OutputRecord).count =
        (⟨"shop.example", "https://shop.example/a", 1,
          ["https://shop.example/p/1"]⟩ : OutputRecord).product_links.length ∧
      (⟨"shop.example", "https://shop.example/a", 1,
        ["https://shop.example/p/1"]⟩ : OutputRecord).domain =
        normDomain "https://shop.example/a") :=
  ⟨(output_record_iff_product_link "https://shop.example/a" []
      ["https://shop.example/p/1", "https://other.example/x"]).1.mpr
      ⟨"https://shop.example/p/1", by decide, by decide⟩,
    (output_record_iff_product_link "https://shop.example/a" []
      ["https://shop.example/p/1", "https://other.example/x"]).2
      ⟨"shop.example", "https://shop.example/a", 1, ["https://shop.example/p/1"]⟩
      (by decide)⟩

/-- Claim C10: every link classified as a product link is also part of the
discovered-links list the fetch returns, so product pages are enqueued and
crawled as children. -/
theorem product_links_subset_of_new_urls (url : String) (vis links : List String) :
    ∀ l ∈ (fetch_dynamic_content url vis links).product_links,
      l ∈ (fetch_dynamic_content url vis links).new_urls := by
  intro l hl
  have hp : (processLinks url vis links).2.1 =
      (processLinks url vis links).2.2.filter isProductLink :=
    fetchLinkLoop_prods url (normDomain url) links vis [] [] rfl
  rw [fetch_dynamic_content] at hl ⊢
  simp only at hl ⊢
  rw [hp] at hl
  exact List.mem_of_mem_filter hl

/-- Witness for C10: the scenario's product link is among the returned
discovered links. -/
theorem product_links_subset_of_new_urls_witness :
    "https://shop.example/p/1" ∈
      (fetch_dynamic_content "https://shop.example/a" []
        ["https://shop.example/p/1", "https://other.example/x"]).new_urls :=
  product_links_subset_of_new_urls "https://shop.example/a" []
    ["https://shop.example/p/1", "https://other.example/x"]
    "https://shop.example/p/1" (by decide)

/-- Claim C1 is violated by the code: after the one successful fetch of the
seed (the only fetch so far), the discovered link `"https://d/l"` sits in
the frontier queue TWICE — `process_url` enqueues `new_urls` right after
the fetch, and the collect step of `process_tasks` enqueues the same
`new_urls` again. The state shown is `process_tasks` frozen after its first
round. -/
theorem discovered_link_enqueued_twice :
    (process_tasks oracleSingleLink [] 1 (initCrawlState (some 4) "https://d/a")).fetchLog
      = ["https://d/a"] ∧
    (process_tasks oracleSingleLink [] 1 (initCrawlState (some 4) "https://d/a")).queue.count
      "https://d/l" = 2 := by
  decide

/-- Claim C2 is violated by the code: with two tasks in flight
(`"https://d/u1"` dequeued first, `"https://d/u2"` dequeued last), the task
for `u1` fails while `u2` is still running, yet `failed_urls` ends as
`[u2]` — the collect loop reads the dispatch loop's `url` variable (the
most recently dequeued URL) instead of the completed task's own URL, so the
actually-failed `u1` is never recorded. The fetch log shows `u1` was
fetched (its oracle outcome is `failed`) and `u2` was fetched (it
succeeds). -/
theorem failure_attributed_to_loop_variable :
    (process_tasks oracleFirstFails [] 3 twoUrlState).fetchLog
      = ["https://d/u1", "https://d/u2"] ∧
    (process_tasks oracleFirstFails [] 3 twoUrlState).failed = ["https://d/u2"] ∧
    "https://d/u1" ∉ (process_tasks oracleFirstFails [] 3 twoUrlState).failed := by
  decide

/-- Claim C5 is violated by the code: the link `"https://d/l"` is discovered
once (on the seed page) but, because the discovered links are enqueued
twice (see `discovered_link_enqueued_twice`), it is fetched twice in the
initial pass; failing both times it enters `FailedSet`, and the retry pass
fetches it a THIRD time. The retry pass's own failures are indeed discarded
(no fourth fetch appears in the log). -/
theorem failed_url_fetched_three_times :
    (process_domain oracleSingleLink [] [] 10 10 (some 4) "https://d/a").fetchLog
      = ["https://d/a", "https://d/l", "https://d/l", "https://d/l"] := by
  decide

/-- Claim C9: with a missing seed file, or one whose lines are all blank,
`main` exits with status 1 before any crawling (no `process_domain` runs,
hence no output record can be written); and blank lines of a present seed
file are simply ignored by `load_start_urls`. -/
theorem empty_seed_list_fatal :
    (∀ (file : Option (List String)) (oracle : String → Nat → FetchResult)
        (cores : Option Nat) (fuel : Nat),
        (file = none ∨ ∃ lines, file = some lines ∧ ∀ l ∈ lines, pyStrip l = "") →
        mainRun file oracle cores fuel = .error 1) ∧
    (∀ (pre post : List String) (b : String), pyStrip b = "" →
        load_start_urls (some (pre ++ b :: post)) = load_start_urls (some (pre ++ post))) := by
  constructor
  · rintro file oracle cores fuel (rfl | ⟨lines, rfl, hblank⟩)
    · rfl
    · have hempty : load_start_urls (some lines) = [] := by
        rw [load_start_urls, List.filter_eq_nil_iff]
        intro a ha
        obtain ⟨l, hl, rfl⟩ := List.mem_map.mp ha
        simp [hblank l hl]
      rw [mainRun, hempty]
      rfl
  · intro pre post b hb
    simp [load_start_urls, List.filter_append, hb]

/-- Witness for C9: a missing file and an all-blank file both exit with
status 1, and a blank line is dropped from a seed list. -/
theorem empty_seed_list_fatal_witness :
    mainRun none oracleAllFail none 5 = .error 1 ∧
    mainRun (some ["", "  "]) oracleAllFail none 5 = .error 1 ∧
    load_start_urls (some ([] ++ "" :: ["https://a"])) =
      load_start_urls (some ([] ++ ["https://a"])) :=
  ⟨empty_seed_list_fatal.1 none oracleAllFail none 5 (Or.inl rfl),
    empty_seed_list_fatal.1 (some ["", "  "]) oracleAllFail none 5
      (Or.inr ⟨["", "  "], rfl, by decide⟩),
    empty_seed_list_fatal.2 [] ["https://a"] "" (by decide)⟩

end Crawler
